import Mathlib

/-!
# Verification of the aiokafka producer façade (`aiokafka/producer/producer.py`)

Shallow embedding of the producer pipeline: configuration validation,
record serialization and partitioning, transactional-state checks, and the
routing of records to message accumulators, for `BaseProducer`,
`AIOKafkaProducer` and `MultiTXNProducer`.

The `MessageAccumulator`, `Sender` and `TransactionManager` classes live in
sibling modules that are not part of the sources verified here; the
`TransactionManager` state machine is modelled from the specification
(§4.3 of the design document) where noted.  Everything else is translated
directly from `producer.py`.
-/

namespace AIOKafka

/-- Serialized key/value payloads are byte strings; only their lengths matter
to the producer façade, but we keep the full list of bytes. -/
abbrev Bytes := List Nat

/-- A topic/partition pair (`aiokafka.structs.TopicPartition`). -/
structure TopicPartition where
  topic : String
  partition : Int
deriving DecidableEq, Repr

/-- The Python exceptions that the producer façade can raise.
`messageSizeTooLarge` carries the computed message size, as the Python
error message does. -/
inductive KafkaError
  | valueError
  | runtimeError
  | messageSizeTooLarge (size : Nat)
  | illegalOperation
  | unsupportedVersion
  | assertionError
  | keyError
  | attributeError
  | producerFenced
deriving DecidableEq, Repr

/-! ## TransactionManager (spec-modelled)

The `TransactionManager` class is imported from
`aiokafka.producer.transaction_manager`, which is not among the sources
verified here; we model it from the specification. -/

/-- Modelled from the spec: §4.3 "States: `Uninitialized → PidRequested →
Ready → InTransaction → Committing|Aborting → Ready` (loops) `→ Fatal`".
The missing source is `aiokafka/producer/transaction_manager.py`. -/
inductive TxnPhase
  | uninitialized
  | pidRequested
  | ready
  | inTransaction
  | committing
  | aborting
  | fatal
deriving DecidableEq, Repr

/-- Modelled from the spec: §3 "TransactionManager ... State: producer id,
producer epoch, current transaction phase, set of partitions already
registered in the current transaction".  The missing source is
`aiokafka/producer/transaction_manager.py`. -/
structure TransactionManager where
  transactionalId : Option String
  pidEpoch : Option (Nat × Nat)
  phase : TxnPhase
  txnPartitions : List TopicPartition
deriving DecidableEq, Repr

namespace TransactionManager

/-- `TransactionManager(transactional_id, ...)`: a freshly constructed
manager, before any producer id has been obtained. -/
def new (transactionalId : Option String) : TransactionManager :=
  { transactionalId := transactionalId
    pidEpoch := none
    phase := .uninitialized
    txnPartitions := [] }

/-- Modelled from the spec: `is_in_transaction()` observes whether the
current transaction phase is `InTransaction` (sends are valid only there;
§4.3 transitions leave `InTransaction` on commit/abort). -/
def isInTransaction (tm : TransactionManager) : Bool :=
  tm.phase = .inTransaction

/-- Modelled from the spec: §4.3 "`is_fatal_error()`: observable predicate;
once true, no further transaction operations are permitted". -/
def isFatalError (tm : TransactionManager) : Bool :=
  tm.phase = .fatal

/-- Modelled from the spec: §4.3 "`wait_for_pid()`: suspends until a
producer id/epoch has been obtained from the coordinator".  In this
sequential model the coordinator's answer is the `coordPid` argument; a
manager in the `Fatal` phase fails with `ProducerFenced`. -/
def waitForPid (tm : TransactionManager) (coordPid : Nat × Nat) :
    Except KafkaError TransactionManager :=
  if tm.phase = .fatal then
    .error .producerFenced
  else if tm.pidEpoch.isSome then
    .ok tm
  else
    .ok { tm with pidEpoch := some coordPid, phase := .ready }

/-- Modelled from the spec: §4.3 "`begin_transaction()`: valid only from
`Ready`; transitions to `InTransaction`; clears the per-transaction
registered-partitions set."  Outside `Ready` the illegal-state error is
raised synchronously (§7). -/
def beginTxn (tm : TransactionManager) : Except KafkaError TransactionManager :=
  if tm.phase = .ready then
    .ok { tm with phase := .inTransaction, txnPartitions := [] }
  else
    .error .illegalOperation

/-- Modelled from the spec: §4.3 "`committing_transaction()` /
`aborting_transaction()`: valid only from `InTransaction`; transitions to
`Committing`/`Aborting`"; outside `InTransaction` the illegal-state error
is raised synchronously, before any state change (§7). -/
def committingTransaction (tm : TransactionManager) :
    Except KafkaError TransactionManager :=
  if tm.phase = .inTransaction then
    .ok { tm with phase := .committing }
  else
    .error .illegalOperation

/-- Modelled from the spec: same contract as `committingTransaction`, for
the aborting direction. -/
def abortingTransaction (tm : TransactionManager) :
    Except KafkaError TransactionManager :=
  if tm.phase = .inTransaction then
    .ok { tm with phase := .aborting }
  else
    .error .illegalOperation

/-- Modelled from the spec: §4.3 "`wait_for_transaction_end()` suspends
until the coordinator confirms, then returns to `Ready`". -/
def waitForTransactionEnd (tm : TransactionManager) : TransactionManager :=
  if tm.phase = .committing ∨ tm.phase = .aborting then
    { tm with phase := .ready }
  else
    tm

/-- Sanity invariant of the modelled state machine: any phase past
pid acquisition holds a producer id/epoch. -/
def hasPidInvariant (tm : TransactionManager) : Prop :=
  (tm.phase = .ready ∨ tm.phase = .inTransaction ∨
   tm.phase = .committing ∨ tm.phase = .aborting) → tm.pidEpoch.isSome

end TransactionManager

/-! ## Configuration validation (`BaseProducer.__init__` and subclasses) -/

/-- The `acks` argument as passed by the caller: the sentinel `_missing`
(argument omitted), an integer, or a string such as `'all'`. -/
inductive AcksParam
  | missing
  | intAcks (i : Int)
  | strAcks (s : String)
deriving DecidableEq, Repr

/-- `acks in (0, 1, -1, 'all', _missing)` — the values accepted by
`BaseProducer.__init__`. -/
def acksAccepted (acks : AcksParam) : Bool :=
  acks = .missing ∨ acks = .intAcks 0 ∨ acks = .intAcks 1 ∨
    acks = .intAcks (-1) ∨ acks = .strAcks "all"

/-- `acks in ('all', -1)` — the only values compatible with idempotence
(`AIOKafkaProducer.__init__`) and with `MultiTXNProducer.__init__`. -/
def acksAllOrMinusOne (acks : AcksParam) : Bool :=
  acks = .strAcks "all" ∨ acks = .intAcks (-1)

/-- The normalisation done after validation in `BaseProducer.__init__`:
`_missing` defaults to `1` and `'all'` becomes `-1`. -/
def normalizeAcks (acks : AcksParam) : AcksParam :=
  if acks = .missing then .intAcks 1
  else if acks = .strAcks "all" then .intAcks (-1)
  else acks

/-- Compression attribute constants (`LegacyRecordBatchBuilder.CODEC_*`,
an external wire-codec detail): gzip = 1, snappy = 2, lz4 = 3. -/
def codecAttr (c : String) : Nat :=
  if c = "gzip" then 1 else if c = "snappy" then 2 else if c = "lz4" then 3 else 0

/-- The outcome of a successful `BaseProducer.__init__` that the claims
observe: the normalised acks value and compression attributes. -/
structure BaseConfig where
  acks : AcksParam
  compressionAttrs : Nat
deriving DecidableEq, Repr

/-- `BaseProducer.__init__` validation: rejects an unacceptable `acks`
value and an unknown `compression_type` with `ValueError`, and a known
compression whose library is unavailable (`hasCodec` false) with
`RuntimeError`; otherwise the producer object is created. -/
def baseProducerInit (acks : AcksParam) (compressionType : Option String)
    (hasCodec : String → Bool) : Except KafkaError BaseConfig :=
  if ¬ acksAccepted acks then
    .error .valueError
  else if ¬ (compressionType = some "gzip" ∨ compressionType = some "snappy" ∨
      compressionType = some "lz4" ∨ compressionType = none) then
    .error .valueError
  else
    match compressionType with
    | some c =>
        if hasCodec c then
          .ok { acks := normalizeAcks acks, compressionAttrs := codecAttr c }
        else
          .error .runtimeError
    | none => .ok { acks := normalizeAcks acks, compressionAttrs := 0 }

/-- `AIOKafkaProducer.__init__`: a `transactional_id` forces
`enable_idempotence`; under idempotence an omitted `acks` defaults to `-1`
and any explicit value outside `('all', -1)` raises `ValueError` (before
`BaseProducer.__init__` runs); a `TransactionManager` is created exactly
when idempotence is enabled. -/
def aiokafkaProducerInit (acks : AcksParam) (enableIdempotence : Bool)
    (transactionalId : Option String) (compressionType : Option String)
    (hasCodec : String → Bool) :
    Except KafkaError (BaseConfig × Option TransactionManager) :=
  let enableIdem := if transactionalId.isSome then true else enableIdempotence
  if enableIdem then
    let acksChecked : Except KafkaError AcksParam :=
      if acks = .missing then .ok (.intAcks (-1))
      else if acksAllOrMinusOne acks then .ok acks
      else .error .valueError
    match acksChecked with
    | .error e => .error e
    | .ok acks₁ =>
        match baseProducerInit acks₁ compressionType hasCodec with
        | .error e => .error e
        | .ok bc => .ok (bc, some (TransactionManager.new transactionalId))
  else
    match baseProducerInit acks compressionType hasCodec with
    | .error e => .error e
    | .ok bc => .ok (bc, none)

/-- `MultiTXNProducer.__init__`: an omitted `acks` defaults to `-1` and
any explicit value outside `('all', -1)` raises `ValueError` before
`BaseProducer.__init__` runs. -/
def multiTXNProducerInit (acks : AcksParam) (compressionType : Option String)
    (hasCodec : String → Bool) : Except KafkaError BaseConfig :=
  if acks = .missing then
    baseProducerInit (.intAcks (-1)) compressionType hasCodec
  else if acksAllOrMinusOne acks then
    baseProducerInit acks compressionType hasCodec
  else
    .error .valueError

/-! ## Serialization and partitioning (`BaseProducer._serialize`,
`BaseProducer._partition`) -/

/-- The configuration and external collaborators a constructed producer
holds that the send path consults.  `recordOverhead` stands for
`LegacyRecordBatchBuilder.record_overhead(self._producer_magic)` (wire
codec, external); `partitionsForTopic`/`availablePartitionsForTopic` are
the cluster-metadata collaborator and `partitioner` the injected
partition-selection function. -/
structure ProducerConfig where
  keySerializer : Option (Option Bytes → Option Bytes)
  valueSerializer : Option (Option Bytes → Option Bytes)
  maxRequestSize : Nat
  recordOverhead : Nat
  apiVersionGE081 : Bool
  apiVersionGE011 : Bool
  partitionsForTopic : String → List Int
  availablePartitionsForTopic : String → List Int
  partitioner : Option Bytes → List Int → List Int → Int

/-- The serializer application in `BaseProducer._serialize`: a configured
serializer is applied (even to `None`), otherwise the input passes
through. -/
def serializedPair (cfg : ProducerConfig) (key value : Option Bytes) :
    Option Bytes × Option Bytes :=
  (match cfg.keySerializer with
   | some f => f key
   | none => key,
   match cfg.valueSerializer with
   | some f => f value
   | none => value)

/-- `message_size` in `BaseProducer._serialize`: the record overhead plus
the lengths of the serialized key and value (each counted only when not
`None`). -/
def messageSize (cfg : ProducerConfig) (sk sv : Option Bytes) : Nat :=
  cfg.recordOverhead +
    (match sk with
     | some k => k.length
     | none => 0) +
    (match sv with
     | some v => v.length
     | none => 0)

/-- The serialized size of a key/value pair as `BaseProducer._serialize`
computes it. -/
def serializedSize (cfg : ProducerConfig) (key value : Option Bytes) : Nat :=
  messageSize cfg (serializedPair cfg key value).1 (serializedPair cfg key value).2

/-- `BaseProducer._serialize`: raises `MessageSizeTooLargeError` when the
serialized size strictly exceeds `max_request_size`, otherwise returns
the serialized key and value. -/
def serialize (cfg : ProducerConfig) (key value : Option Bytes) :
    Except KafkaError (Option Bytes × Option Bytes) :=
  let sk := (serializedPair cfg key value).1
  let sv := (serializedPair cfg key value).2
  if messageSize cfg sk sv > cfg.maxRequestSize then
    .error (.messageSizeTooLarge (messageSize cfg sk sv))
  else
    .ok (sk, sv)

/-- `BaseProducer._partition`: an explicitly passed partition must be
non-negative (`assert partition >= 0`) and present in the topic's cluster
metadata (`assert partition in self._metadata.partitions_for_topic`);
otherwise the configured partitioner chooses from all/available
partitions using the serialized key. -/
def partitionFor (cfg : ProducerConfig) (topic : String)
    (partition : Option Int) (serializedKey : Option Bytes) :
    Except KafkaError Int :=
  match partition with
  | some p =>
      if ¬ (0 ≤ p) then .error .assertionError
      else if ¬ (p ∈ cfg.partitionsForTopic topic) then .error .assertionError
      else .ok p
  | none =>
      .ok (cfg.partitioner serializedKey (cfg.partitionsForTopic topic)
        (cfg.availablePartitionsForTopic topic))

/-! ## The send pipeline (`BaseProducer.send`) -/

/-- A record as handed to `MessageAccumulator.add_message`. -/
structure PendingRecord where
  tp : TopicPartition
  key : Option Bytes
  value : Option Bytes
deriving DecidableEq, Repr

/-- Which accumulator a record was routed to: the producer's own
`_message_accumulator` (`primary`), or the per-identity accumulator
`_accumulators[tid]` of a `MultiTXNProducer`. -/
inductive AccumRef
  | primary
  | forId (tid : String)
deriving DecidableEq, Repr

/-- The observable outcome of one `send` call: an exception raised before
the record reached any accumulator (`failed`), or the record appended to
the accumulator `dest` (`appended`). -/
inductive SendOutcome
  | failed (e : KafkaError)
  | appended (dest : AccumRef) (rec : PendingRecord)
deriving DecidableEq, Repr

/-- The subclass hooks `BaseProducer.send` dispatches to
(`_transactional_id_or_default`, `_verify_txn_started`,
`_message_accumulator_for`). -/
structure SendHooks where
  tidOrDefault : Option String → Option String
  verifyTxnStarted : Option String → Except KafkaError Unit
  messageAccumulatorFor : Option String → TopicPartition → Except KafkaError AccumRef

/-- `BaseProducer.send`, step by step in source order: the two entry
assertions, `_transactional_id_or_default`, the metadata wait (modelled
as succeeding), `_verify_txn_started`, the headers version check,
`_serialize`, `_partition`, `_message_accumulator_for`, and finally
`add_message` on the chosen accumulator.  `headers` only matters for the
version check here, so it is reduced to `Option Unit`. -/
def baseSend (cfg : ProducerConfig) (hooks : SendHooks) (topic : String)
    (value key : Option Bytes) (partition : Option Int)
    (headers : Option Unit) (transactionalId : Option String) : SendOutcome :=
  if ¬ (value.isSome ∨ cfg.apiVersionGE081) then .failed .assertionError
  else if value = none ∧ key = none then .failed .assertionError
  else
    let tid := hooks.tidOrDefault transactionalId
    match hooks.verifyTxnStarted tid with
    | .error e => .failed e
    | .ok _ =>
        if headers.isSome ∧ ¬ cfg.apiVersionGE011 then .failed .unsupportedVersion
        else
          match serialize cfg key value with
          | .error e => .failed e
          | .ok (kb, vb) =>
              match partitionFor cfg topic partition kb with
              | .error e => .failed e
              | .ok part =>
                  match hooks.messageAccumulatorFor tid ⟨topic, part⟩ with
                  | .error e => .failed e
                  | .ok dest => .appended dest ⟨⟨topic, part⟩, kb, vb⟩

/-! ## AIOKafkaProducer (single transactional identity) -/

/-- Python string truthiness of an `Optional[str]`: `None` and the empty
string are falsy. -/
def pyStrFalsy : Option String → Bool
  | none => true
  | some s => s = ""

/-- The state of an `AIOKafkaProducer` that the claims observe: its
configuration and its optional `_txn_manager`. -/
structure AIOKafkaProducer where
  cfg : ProducerConfig
  txnManager : Option TransactionManager

namespace AIOKafkaProducer

/-- `AIOKafkaProducer._transactional_id_or_default`: when the argument is
falsy and a transaction manager exists, the manager's configured id;
in every other case the method falls through and returns `None`. -/
def transactionalIdOrDefault (p : AIOKafkaProducer)
    (transactionalId : Option String) : Option String :=
  if pyStrFalsy transactionalId then
    match p.txnManager with
    | some tm => tm.transactionalId
    | none => none
  else none

/-- `AIOKafkaProducer._verify_txn_started`: with a transaction manager
that has a configured `transactional_id` and is not currently in a
transaction, raises `IllegalOperation`; otherwise passes. -/
def verifyTxnStarted (p : AIOKafkaProducer) (_transactionalId : Option String) :
    Except KafkaError Unit :=
  match p.txnManager with
  | none => .ok ()
  | some tm =>
      if tm.transactionalId.isSome ∧ ¬ tm.isInTransaction then
        .error .illegalOperation
      else .ok ()

/-- `AIOKafkaProducer._message_accumulator_for`: always the producer's
single accumulator. -/
def messageAccumulatorFor (_p : AIOKafkaProducer) (_transactionalId : Option String)
    (_tp : TopicPartition) : Except KafkaError AccumRef :=
  .ok .primary

/-- `BaseProducer.send` as executed by an `AIOKafkaProducer`. -/
def send (p : AIOKafkaProducer) (topic : String) (value key : Option Bytes)
    (partition : Option Int) (headers : Option Unit)
    (transactionalId : Option String) : SendOutcome :=
  baseSend p.cfg
    { tidOrDefault := p.transactionalIdOrDefault
      verifyTxnStarted := p.verifyTxnStarted
      messageAccumulatorFor := p.messageAccumulatorFor }
    topic value key partition headers transactionalId

/-- The observable outcome of `AIOKafkaProducer.send_batch`: an exception
raised before `add_batch`, or the batch appended for `tp`. -/
inductive BatchOutcome
  | failed (e : KafkaError)
  | appended (tp : TopicPartition)
deriving DecidableEq, Repr

/-- `AIOKafkaProducer.send_batch`, in source order: metadata wait
(modelled as succeeding), `_partition` (with `None` key/value), the
transactional-state check, then `add_batch`. -/
def sendBatch (p : AIOKafkaProducer) (topic : String) (partition : Option Int) :
    BatchOutcome :=
  match partitionFor p.cfg topic partition none with
  | .error e => .failed e
  | .ok part =>
      match p.txnManager with
      | none => .appended ⟨topic, part⟩
      | some tm =>
          if tm.transactionalId.isSome ∧ ¬ tm.isInTransaction then
            .failed .illegalOperation
          else .appended ⟨topic, part⟩

/-- `AIOKafkaProducer._ensure_transactional`: raises `IllegalOperation`
unless a transaction manager with a configured `transactional_id`
exists. -/
def ensureTransactional (p : AIOKafkaProducer) : Except KafkaError Unit :=
  match p.txnManager with
  | none => .error .illegalOperation
  | some tm =>
      if tm.transactionalId = none then .error .illegalOperation else .ok ()

/-- `AIOKafkaProducer.begin_transaction`: `_ensure_transactional`, then
`await asyncio.shield(txn_manager.wait_for_pid())`, then
`txn_manager.begin_transaction()`.  The pair returns the producer state
after the call (unchanged when an exception was raised before any
mutation) together with the raised exception, if any. -/
def beginTransaction (p : AIOKafkaProducer) (coordPid : Nat × Nat) :
    AIOKafkaProducer × Except KafkaError Unit :=
  match p.ensureTransactional with
  | .error e => (p, .error e)
  | .ok _ =>
      match p.txnManager with
      | none => (p, .error .illegalOperation)
      | some tm =>
          match tm.waitForPid coordPid with
          | .error e => (p, .error e)
          | .ok tm₁ =>
              match tm₁.beginTxn with
              | .error e => ({ p with txnManager := some tm₁ }, .error e)
              | .ok tm₂ => ({ p with txnManager := some tm₂ }, .ok ())

/-- `AIOKafkaProducer.commit_transaction`: `_ensure_transactional`, then
`txn_manager.committing_transaction()` (raising before any state change
when not in a transaction), then the shielded
`wait_for_transaction_end()`. -/
def commitTransaction (p : AIOKafkaProducer) :
    AIOKafkaProducer × Except KafkaError Unit :=
  match p.ensureTransactional with
  | .error e => (p, .error e)
  | .ok _ =>
      match p.txnManager with
      | none => (p, .error .illegalOperation)
      | some tm =>
          match tm.committingTransaction with
          | .error e => (p, .error e)
          | .ok tm₁ =>
              ({ p with txnManager := some tm₁.waitForTransactionEnd }, .ok ())

/-- `AIOKafkaProducer.abort_transaction`: as `commit_transaction`, through
`aborting_transaction()`. -/
def abortTransaction (p : AIOKafkaProducer) :
    AIOKafkaProducer × Except KafkaError Unit :=
  match p.ensureTransactional with
  | .error e => (p, .error e)
  | .ok _ =>
      match p.txnManager with
      | none => (p, .error .illegalOperation)
      | some tm =>
          match tm.abortingTransaction with
          | .error e => (p, .error e)
          | .ok tm₁ =>
              ({ p with txnManager := some tm₁.waitForTransactionEnd }, .ok ())

end AIOKafkaProducer

/-! ## TransactionContext (the `async with producer.transaction()` manager) -/

/-- What `TransactionContext.__aexit__` did: committed, aborted, or (on a
fatal transaction error) returned without any transaction operation.
`__aexit__` returns `None` on every path, so it never suppresses the
body's exception. -/
inductive TxnCtxAction
  | committed
  | aborted
  | noAction
deriving DecidableEq, Repr

/-- `TransactionContext.__aexit__`: with no exception from the body,
`commit_transaction()`; with an exception, nothing when
`txn_manager.is_fatal_error()` (the exception propagates), otherwise
`abort_transaction()`.  A producer without a transaction manager would
fail the attribute access `self._producer._txn_manager.is_fatal_error()`. -/
def transactionContextExit (p : AIOKafkaProducer) (excRaised : Bool) :
    AIOKafkaProducer × Except KafkaError TxnCtxAction :=
  if excRaised then
    match p.txnManager with
    | none => (p, .error .attributeError)
    | some tm =>
        if tm.isFatalError then (p, .ok .noAction)
        else
          match p.abortTransaction with
          | (p₁, .error e) => (p₁, .error e)
          | (p₁, .ok _) => (p₁, .ok .aborted)
  else
    match p.commitTransaction with
    | (p₁, .error e) => (p₁, .error e)
    | (p₁, .ok _) => (p₁, .ok .committed)

/-! ## MultiTXNProducer (one triple per transactional identity)

The three Python dicts `_transactions`, `_accumulators` and `_senders`
are modelled as association lists keyed by the transactional id. -/

/-- The keys of an association list, in order. -/
def alKeys {α : Type} (l : List (String × α)) : List String :=
  l.map Prod.fst

/-- Dict lookup `d.get(k)` / `d[k]` (the caller decides whether a missing
key is a `KeyError`). -/
def alLookup {α : Type} (l : List (String × α)) (k : String) : Option α :=
  match l.find? (fun kv => kv.1 == k) with
  | some kv => some kv.2
  | none => none

/-- Dict removal `d.pop(k, None)`. -/
def alErase {α : Type} (l : List (String × α)) (k : String) :
    List (String × α) :=
  l.filter (fun kv => !(kv.1 == k))

/-- Dict insertion `d[k] = v` for a fresh key. -/
def alInsert {α : Type} (l : List (String × α)) (k : String) (v : α) :
    List (String × α) :=
  (k, v) :: alErase l k

/-- In-place mutation of the object stored under an existing key (Python
mutates the `TransactionManager` object itself; the dict is untouched). -/
def alUpdate {α : Type} (l : List (String × α)) (k : String) (v : α) :
    List (String × α) :=
  l.map (fun kv => if kv.1 == k then (k, v) else kv)

/-- A `MessageAccumulator` as far as the façade observes it: which
transaction manager (by id) it was constructed with. -/
structure MessageAccumulator where
  txnId : Option String
deriving DecidableEq, Repr

/-- A `Sender` as far as the façade observes it: its transaction manager's
id and whether `start()` has completed. -/
structure Sender where
  txnId : Option String
  started : Bool
deriving DecidableEq, Repr

/-- The state of a `MultiTXNProducer` that the claims observe: the default
(non-transactional) accumulator is implicit (`AccumRef.primary`); the
three per-identity maps are explicit. -/
structure MultiTXNProducer where
  cfg : ProducerConfig
  transactions : List (String × TransactionManager)
  accumulators : List (String × MessageAccumulator)
  senders : List (String × Sender)

namespace MultiTXNProducer

/-- `MultiTXNProducer._transactional_id_or_default`: the body is
`return None` — the explicit argument is discarded. -/
def transactionalIdOrDefault (_p : MultiTXNProducer)
    (_transactionalId : Option String) : Option String :=
  none

/-- `MultiTXNProducer._verify_txn_started`: `self._transactions[tid]`
with a missing (or `None`) key raises `KeyError`, which the method
swallows (`pass`); with a manager present, asserts the manager's id and
raises `IllegalOperation` unless it is in a transaction. -/
def verifyTxnStarted (p : MultiTXNProducer) (transactionalId : Option String) :
    Except KafkaError Unit :=
  match transactionalId with
  | none => .ok ()
  | some t =>
      match alLookup p.transactions t with
      | none => .ok ()
      | some tm =>
          if ¬ (tm.transactionalId = some t) then .error .assertionError
          else if ¬ tm.isInTransaction then .error .illegalOperation
          else .ok ()

/-- `MultiTXNProducer._message_accumulator_for`: the default accumulator
for `None`, otherwise `self._accumulators[tid]` (raising `KeyError` when
the identity has no accumulator). -/
def messageAccumulatorFor (p : MultiTXNProducer) (transactionalId : Option String)
    (_tp : TopicPartition) : Except KafkaError AccumRef :=
  match transactionalId with
  | none => .ok .primary
  | some t =>
      if (alLookup p.accumulators t).isSome then .ok (.forId t)
      else .error .keyError

/-- `BaseProducer.send` as executed by a `MultiTXNProducer`. -/
def send (p : MultiTXNProducer) (topic : String) (value key : Option Bytes)
    (partition : Option Int) (headers : Option Unit)
    (transactionalId : Option String) : SendOutcome :=
  baseSend p.cfg
    { tidOrDefault := p.transactionalIdOrDefault
      verifyTxnStarted := p.verifyTxnStarted
      messageAccumulatorFor := p.messageAccumulatorFor }
    topic value key partition headers transactionalId

/-- `MultiTXNProducer._init_transaction`: creates the per-identity
`TransactionManager`, `MessageAccumulator` and `Sender`, stores each in
its map, and awaits `sender.start()`. -/
def initTransaction (p : MultiTXNProducer) (tid : String) :
    MultiTXNProducer × TransactionManager :=
  let tm := TransactionManager.new (some tid)
  ({ p with
      transactions := alInsert p.transactions tid tm
      accumulators := alInsert p.accumulators tid { txnId := some tid }
      senders := alInsert p.senders tid { txnId := some tid, started := true } },
   tm)

/-- The shared tail of `begin_transaction` and `maybe_begin_transaction`:
the shielded `wait_for_pid()` followed by
`txn_manager.begin_transaction()`, with the manager object's mutations
reflected back into the `_transactions` map. -/
def beginOn (p : MultiTXNProducer) (tid : String) (tm : TransactionManager)
    (coordPid : Nat × Nat) : MultiTXNProducer × Except KafkaError Unit :=
  match tm.waitForPid coordPid with
  | .error e => (p, .error e)
  | .ok tm₁ =>
      let p₁ := { p with transactions := alUpdate p.transactions tid tm₁ }
      match tm₁.beginTxn with
      | .error e => (p₁, .error e)
      | .ok tm₂ =>
          ({ p₁ with transactions := alUpdate p₁.transactions tid tm₂ }, .ok ())

/-- `MultiTXNProducer.begin_transaction(transactional_id)`: the triple is
created lazily by `_init_transaction` when the identity is new, then the
shielded `wait_for_pid()` and `begin_transaction()` transition run. -/
def beginTransaction (p : MultiTXNProducer) (tid : String)
    (coordPid : Nat × Nat) : MultiTXNProducer × Except KafkaError Unit :=
  match alLookup p.transactions tid with
  | some tm => beginOn p tid tm coordPid
  | none =>
      let (p₁, tm) := p.initTransaction tid
      beginOn p₁ tid tm coordPid

/-- `MultiTXNProducer.maybe_begin_transaction(transactional_id)`: as
`begin_transaction`, except that an identity already in a transaction is
left alone. -/
def maybeBeginTransaction (p : MultiTXNProducer) (tid : String)
    (coordPid : Nat × Nat) : MultiTXNProducer × Except KafkaError Unit :=
  match alLookup p.transactions tid with
  | some tm =>
      if tm.isInTransaction then (p, .ok ())
      else beginOn p tid tm coordPid
  | none =>
      let (p₁, tm) := p.initTransaction tid
      beginOn p₁ tid tm coordPid

/-- `MultiTXNProducer.commit_transaction(transactional_id)`:
`self._transactions[tid]` (raising `KeyError` when absent),
`committing_transaction()`, then the shielded
`wait_for_transaction_end()`. -/
def commitTransaction (p : MultiTXNProducer) (tid : String) :
    MultiTXNProducer × Except KafkaError Unit :=
  match alLookup p.transactions tid with
  | none => (p, .error .keyError)
  | some tm =>
      match tm.committingTransaction with
      | .error e => (p, .error e)
      | .ok tm₁ =>
          ({ p with
              transactions := alUpdate p.transactions tid tm₁.waitForTransactionEnd },
           .ok ())

/-- `MultiTXNProducer.abort_transaction(transactional_id)`: as
`commit_transaction`, through `aborting_transaction()`. -/
def abortTransaction (p : MultiTXNProducer) (tid : String) :
    MultiTXNProducer × Except KafkaError Unit :=
  match alLookup p.transactions tid with
  | none => (p, .error .keyError)
  | some tm =>
      match tm.abortingTransaction with
      | .error e => (p, .error e)
      | .ok tm₁ =>
          ({ p with
              transactions := alUpdate p.transactions tid tm₁.waitForTransactionEnd },
           .ok ())

/-- `MultiTXNProducer.stop_transaction(transactional_id)`: pops the
identity from all three maps, and when the popped manager is inside a
transaction runs `aborting_transaction()` and the shielded
`wait_for_transaction_end()` before tearing the sender down.  The second
component is the popped manager's final state (for observation). -/
def stopTransaction (p : MultiTXNProducer) (tid : String) :
    MultiTXNProducer × Option TransactionManager :=
  let popped := alLookup p.transactions tid
  let p₁ := { p with
      transactions := alErase p.transactions tid
      accumulators := alErase p.accumulators tid
      senders := alErase p.senders tid }
  match popped with
  | none => (p₁, none)
  | some tm =>
      if tm.isInTransaction then
        match tm.abortingTransaction with
        | .ok tm₁ => (p₁, some tm₁.waitForTransactionEnd)
        | .error _ => (p₁, some tm)
      else (p₁, some tm)

/-- The invariant of claim C6: the three per-identity maps always hold
exactly the same identities. -/
def mapsConsistent (p : MultiTXNProducer) : Prop :=
  alKeys p.transactions = alKeys p.accumulators ∧
    alKeys p.accumulators = alKeys p.senders

end MultiTXNProducer

/-! ## Cancellation model for the transaction-lifecycle coroutines

Each `async def` below is reduced to the ordered list of its await
points, each recording whether the source wraps it in `asyncio.shield`.
In asyncio, cancelling the task that awaits `asyncio.shield(fut)` cancels
the outer await but leaves `fut` (the coordinator round trip) running; an
unshielded await propagates the cancellation into the awaited future. -/

/-- The await points occurring in the transaction-lifecycle methods. -/
inductive AwaitKind
  | waitForPid
  | waitForTransactionEnd
  | addOffsetsFuture
  | senderStart
deriving DecidableEq, Repr

/-- One await point of a coroutine, with its shielding as written in the
source. -/
structure AwaitStep where
  kind : AwaitKind
  shielded : Bool
deriving DecidableEq, Repr

/-- The awaits that are coordinator round trips whose interruption would
half-apply a transaction state transition. -/
def coordinatorWait : AwaitKind → Bool
  | .waitForPid => true
  | .waitForTransactionEnd => true
  | .addOffsetsFuture => true
  | .senderStart => false

/-- Whether cancelling the caller's wait at this await point aborts the
awaited future itself: it does exactly when the await is not shielded. -/
def abortedByCallerCancel (s : AwaitStep) : Bool :=
  !s.shielded

/-- A coroutine's coordinator round trips all survive external
cancellation of the caller's wait. -/
def coordinatorTripsSurviveCancel (steps : List AwaitStep) : Bool :=
  steps.all (fun s => !(coordinatorWait s.kind && abortedByCallerCancel s))

/-- Await points of `AIOKafkaProducer.begin_transaction`:
`await asyncio.shield(self._txn_manager.wait_for_pid())`. -/
def beginTransactionAwaits : List AwaitStep :=
  [⟨.waitForPid, true⟩]

/-- Await points of `AIOKafkaProducer.commit_transaction`:
`await asyncio.shield(self._txn_manager.wait_for_transaction_end())`. -/
def commitTransactionAwaits : List AwaitStep :=
  [⟨.waitForTransactionEnd, true⟩]

/-- Await points of `AIOKafkaProducer.abort_transaction`:
`await asyncio.shield(self._txn_manager.wait_for_transaction_end())`. -/
def abortTransactionAwaits : List AwaitStep :=
  [⟨.waitForTransactionEnd, true⟩]

/-- Await points of `AIOKafkaProducer.send_offsets_to_transaction`:
`await asyncio.shield(fut)` on the `add_offsets_to_txn` future. -/
def sendOffsetsToTransactionAwaits : List AwaitStep :=
  [⟨.addOffsetsFuture, true⟩]

/-- Await points of `MultiTXNProducer.begin_transaction`: for a new
identity, `_init_transaction` awaits `sender.start()` (unshielded), then
in both cases `await asyncio.shield(txn_manager.wait_for_pid())`. -/
def multiBeginTransactionAwaits (newIdentity : Bool) : List AwaitStep :=
  if newIdentity then [⟨.senderStart, false⟩, ⟨.waitForPid, true⟩]
  else [⟨.waitForPid, true⟩]

/-- Await points of `MultiTXNProducer.commit_transaction`:
`await asyncio.shield(txn_manager.wait_for_transaction_end())`. -/
def multiCommitTransactionAwaits : List AwaitStep :=
  [⟨.waitForTransactionEnd, true⟩]

/-- Await points of `MultiTXNProducer.abort_transaction`:
`await asyncio.shield(txn_manager.wait_for_transaction_end())`. -/
def multiAbortTransactionAwaits : List AwaitStep :=
  [⟨.waitForTransactionEnd, true⟩]

/-- Await points of `MultiTXNProducer.send_offsets_to_transaction`:
`await asyncio.shield(fut)` on the `add_offsets_to_txn` future. -/
def multiSendOffsetsToTransactionAwaits : List AwaitStep :=
  [⟨.addOffsetsFuture, true⟩]

/-! ## Concrete fixtures used by closed evaluations -/

/-- A plain configuration: no serializers, 1000-byte request limit,
30-byte record overhead, modern broker, topics with partitions 0 and 1,
partitioner always choosing 0. -/
def sampleCfg : ProducerConfig :=
  { keySerializer := none
    valueSerializer := none
    maxRequestSize := 1000
    recordOverhead := 30
    apiVersionGE081 := true
    apiVersionGE011 := true
    partitionsForTopic := fun _ => [0, 1]
    availablePartitionsForTopic := fun _ => [0, 1]
    partitioner := fun _ _ _ => 0 }

/-- `sampleCfg` with a 10-byte request limit and no record overhead. -/
def tinyCfg : ProducerConfig :=
  { sampleCfg with maxRequestSize := 10, recordOverhead := 0 }

/-- A non-idempotent `AIOKafkaProducer` over `tinyCfg`. -/
def plainTinyProducer : AIOKafkaProducer :=
  { cfg := tinyCfg, txnManager := none }

/-- An `AIOKafkaProducer` configured with `transactional_id='T'`, holding
a manager that is `Ready` (pid acquired) but not inside a transaction. -/
def txnReadyProducer : AIOKafkaProducer :=
  { cfg := sampleCfg
    txnManager := some
      { transactionalId := some "T"
        pidEpoch := some (7, 0)
        phase := .ready
        txnPartitions := [] } }

/-- An `AIOKafkaProducer` configured with `transactional_id='T'`, holding
a manager currently inside a transaction. -/
def txnActiveProducer : AIOKafkaProducer :=
  { cfg := sampleCfg
    txnManager := some
      { transactionalId := some "T"
        pidEpoch := some (7, 0)
        phase := .inTransaction
        txnPartitions := [] } }

/-- An idempotent-only `AIOKafkaProducer` (manager without a
`transactional_id`). -/
def idempotentProducer : AIOKafkaProducer :=
  { cfg := sampleCfg
    txnManager := some
      { transactionalId := none
        pidEpoch := none
        phase := .uninitialized
        txnPartitions := [] } }

/-- A `MultiTXNProducer` holding the triple for identity `X`, whose
manager is `Ready` (pid acquired) but not inside a transaction. -/
def multiWithX : MultiTXNProducer :=
  { cfg := sampleCfg
    transactions :=
      [("X", { transactionalId := some "X"
               pidEpoch := some (7, 0)
               phase := .ready
               txnPartitions := [] })]
    accumulators := [("X", { txnId := some "X" })]
    senders := [("X", { txnId := some "X", started := true })] }

/-- A freshly started `MultiTXNProducer` with no per-identity triple. -/
def multiEmpty : MultiTXNProducer :=
  { cfg := sampleCfg
    transactions := []
    accumulators := []
    senders := [] }

/-- A manager for id `T` with pid acquired, back in the `Ready` phase. -/
def tmReadyT : TransactionManager :=
  { transactionalId := some "T"
    pidEpoch := some (7, 0)
    phase := .ready
    txnPartitions := [] }

/-- A manager for id `T` in the terminal `Fatal` phase. -/
def tmFatalT : TransactionManager :=
  { transactionalId := some "T"
    pidEpoch := some (7, 0)
    phase := .fatal
    txnPartitions := [] }

/-- An `AIOKafkaProducer` whose manager is in the `Fatal` phase. -/
def txnFatalProducer : AIOKafkaProducer :=
  { cfg := sampleCfg, txnManager := some tmFatalT }

/-- A manager for id `X` currently inside a transaction. -/
def tmActiveX : TransactionManager :=
  { transactionalId := some "X"
    pidEpoch := some (7, 0)
    phase := .inTransaction
    txnPartitions := [] }

/-- `multiWithX` with identity X's manager inside a transaction. -/
def multiActiveX : MultiTXNProducer :=
  { multiWithX with transactions := [("X", tmActiveX)] }

/-! ## Helper lemmas on association lists -/

theorem alKeys_alUpdate {α : Type} (l : List (String × α)) (k : String) (v : α) :
    alKeys (alUpdate l k v) = alKeys l := by
  simp only [alUpdate, alKeys, List.map_map]
  apply List.map_congr_left
  intro kv _
  by_cases h : kv.1 == k
  · simp only [Function.comp_apply, if_pos h]
    exact (eq_of_beq h).symm
  · simp only [Function.comp_apply, if_neg h]

theorem alKeys_alErase {α : Type} (l : List (String × α)) (k : String) :
    alKeys (alErase l k) = (alKeys l).filter (fun s => !(s == k)) := by
  induction l with
  | nil => rfl
  | cons kv rest ih =>
      simp only [alErase, alKeys, List.filter_cons, List.map_cons] at *
      by_cases h : kv.1 == k
      · simp [h, ih]
      · simp [h, ih]

theorem alKeys_alInsert {α : Type} (l : List (String × α)) (k : String) (v : α) :
    alKeys (alInsert l k v) = k :: (alKeys l).filter (fun s => !(s == k)) := by
  have h := alKeys_alErase l k
  simp only [alKeys] at h
  simp only [alInsert, alKeys, List.map_cons, h]

theorem alLookup_isSome_alUpdate {α : Type} (l : List (String × α))
    (k : String) (v : α) (h : (alLookup l k).isSome) :
    alLookup (alUpdate l k v) k = some v := by
  induction l with
  | nil => simp [alLookup] at h
  | cons kv rest ih =>
      by_cases hk : kv.1 == k
      · simp [alLookup, alUpdate, List.find?, hk]
      · have hstep : alLookup (alUpdate (kv :: rest) k v) k =
            alLookup (alUpdate rest k v) k := by
          simp [alLookup, alUpdate, List.find?, hk]
        have hh : (alLookup rest k).isSome := by
          simpa [alLookup, List.find?, hk] using h
        rw [hstep]
        exact ih hh

theorem alLookup_alInsert_self {α : Type} (l : List (String × α))
    (k : String) (v : α) : alLookup (alInsert l k v) k = some v := by
  simp [alInsert, alLookup, List.find?]

/-! ## Helper lemmas on the constructors -/

theorem baseInit_error_of_bad_acks (acks : AcksParam) (ct : Option String)
    (hc : String → Bool) (h : acksAccepted acks = false) :
    baseProducerInit acks ct hc = .error .valueError := by
  simp [baseProducerInit, h]

theorem baseInit_error_of_bad_compression (acks : AcksParam)
    (ct : Option String) (hc : String → Bool)
    (h : ¬ (ct = some "gzip" ∨ ct = some "snappy" ∨ ct = some "lz4" ∨ ct = none)) :
    baseProducerInit acks ct hc = .error .valueError := by
  by_cases ha : acksAccepted acks
  · simp [baseProducerInit, ha, h]
  · simp [baseProducerInit, ha]

theorem acksAllOrMinusOne_false_of_not_accepted (acks : AcksParam)
    (h : acksAccepted acks = false) : acksAllOrMinusOne acks = false := by
  cases hb : acksAllOrMinusOne acks
  · rfl
  · exfalso
    simp only [acksAllOrMinusOne, decide_eq_true_eq] at hb
    rcases hb with h1 | h1 <;> subst h1 <;> simp [acksAccepted] at h

theorem acks_ne_missing_of_not_accepted (acks : AcksParam)
    (h : acksAccepted acks = false) : acks ≠ .missing := by
  intro e
  subst e
  simp [acksAccepted] at h

/-! ## Helper lemmas on the send pipeline -/

theorem baseSend_too_large (cfg : ProducerConfig) (hooks : SendHooks)
    (topic : String) (value key : Option Bytes) (partition : Option Int)
    (tid : Option String) (hv : value.isSome = true)
    (hverify : hooks.verifyTxnStarted (hooks.tidOrDefault tid) = .ok ())
    (hsize : serializedSize cfg key value > cfg.maxRequestSize) :
    baseSend cfg hooks topic value key partition none tid =
      .failed (.messageSizeTooLarge (serializedSize cfg key value)) := by
  obtain ⟨va, rfl⟩ := Option.isSome_iff_exists.mp hv
  have hser : serialize cfg key (some va) =
      .error (.messageSizeTooLarge (serializedSize cfg key (some va))) := by
    simp only [serializedSize] at hsize
    simp only [serialize, serializedSize]
    rw [if_pos hsize]
  simp [baseSend, hverify, hser]

theorem serialize_error_shape (cfg : ProducerConfig) (key value : Option Bytes)
    (e : KafkaError) (h : serialize cfg key value = .error e) :
    ∃ n, e = .messageSizeTooLarge n := by
  simp only [serialize] at h
  split at h
  · exact ⟨_, (Except.error.injEq _ _ ▸ h).symm⟩
  · cases h

theorem partitionFor_error_shape (cfg : ProducerConfig) (topic : String)
    (partition : Option Int) (sk : Option Bytes) (e : KafkaError)
    (h : partitionFor cfg topic partition sk = .error e) :
    e = .assertionError := by
  simp only [partitionFor] at h
  split at h
  · split at h
    · exact ((Except.error.injEq _ _).mp h).symm
    · split at h
      · exact ((Except.error.injEq _ _).mp h).symm
      · cases h
  · cases h

theorem baseSend_bad_partition_not_appended (cfg : ProducerConfig)
    (hooks : SendHooks) (topic : String) (value key : Option Bytes)
    (q : Int) (headers : Option Unit) (tid : Option String)
    (hq : ¬ (0 ≤ q ∧ q ∈ cfg.partitionsForTopic topic)) :
    ∀ dest rec, baseSend cfg hooks topic value key (some q) headers tid ≠
      .appended dest rec := by
  intro dest rec hcontr
  have hpf : ∀ sk : Option Bytes, partitionFor cfg topic (some q) sk =
      .error .assertionError := by
    intro sk
    by_cases h0 : 0 ≤ q
    · have h1 : ¬ q ∈ cfg.partitionsForTopic topic := fun hmem => hq ⟨h0, hmem⟩
      simp [partitionFor, h0, h1]
    · simp [partitionFor, h0]
  simp only [baseSend] at hcontr
  split at hcontr
  · exact SendOutcome.noConfusion hcontr
  split at hcontr
  · exact SendOutcome.noConfusion hcontr
  split at hcontr
  · exact SendOutcome.noConfusion hcontr
  split at hcontr
  · exact SendOutcome.noConfusion hcontr
  split at hcontr
  · exact SendOutcome.noConfusion hcontr
  · simp [hpf] at hcontr

theorem single_send_no_illegalOperation (p : AIOKafkaProducer)
    (tm : TransactionManager) (hp : p.txnManager = some tm)
    (ht : tm.transactionalId = none) (topic : String)
    (value key : Option Bytes) (partition : Option Int)
    (headers : Option Unit) (tid : Option String) :
    p.send topic value key partition headers tid ≠ .failed .illegalOperation := by
  intro hcontr
  have hver : p.verifyTxnStarted (p.transactionalIdOrDefault tid) = .ok () := by
    simp [AIOKafkaProducer.verifyTxnStarted, hp, ht]
  simp only [AIOKafkaProducer.send, baseSend, hver] at hcontr
  split at hcontr
  · simp at hcontr
  split at hcontr
  · simp at hcontr
  split at hcontr
  · simp at hcontr
  split at hcontr
  · rename_i kb vb e heq
    obtain ⟨n, rfl⟩ := serialize_error_shape _ _ _ _ heq
    simp at hcontr
  · split at hcontr
    · rename_i e heq
      have := partitionFor_error_shape _ _ _ _ _ heq
      subst this
      simp at hcontr
    · simp [AIOKafkaProducer.messageAccumulatorFor] at hcontr

theorem single_sendBatch_no_illegalOperation (p : AIOKafkaProducer)
    (tm : TransactionManager) (hp : p.txnManager = some tm)
    (ht : tm.transactionalId = none) (topic : String) (partition : Option Int) :
    p.sendBatch topic partition ≠ .failed .illegalOperation := by
  intro hcontr
  simp only [AIOKafkaProducer.sendBatch, hp] at hcontr
  split at hcontr
  · rename_i e heq
    have := partitionFor_error_shape _ _ _ _ _ heq
    subst this
    simp at hcontr
  · simp [ht] at hcontr

/-! ## Helper lemmas on the transaction state machine and the
MultiTXNProducer lifecycle -/

theorem waitForPid_ok_pid (tm : TransactionManager) (c : Nat × Nat)
    (tm' : TransactionManager) (h : tm.waitForPid c = .ok tm') :
    tm'.pidEpoch.isSome = true := by
  simp only [TransactionManager.waitForPid] at h
  split at h
  · cases h
  split at h
  · rename_i hsome
    cases h
    exact hsome
  · cases h
    rfl

theorem beginTxn_ok_shape (tm tm' : TransactionManager)
    (h : tm.beginTxn = .ok tm') :
    tm'.phase = .inTransaction ∧ tm'.pidEpoch = tm.pidEpoch := by
  simp only [TransactionManager.beginTxn] at h
  split at h
  · cases h
    exact ⟨rfl, rfl⟩
  · cases h

theorem beginOn_accumulators (p : MultiTXNProducer) (tid : String)
    (tm : TransactionManager) (c : Nat × Nat) :
    (MultiTXNProducer.beginOn p tid tm c).1.accumulators = p.accumulators := by
  cases hw : tm.waitForPid c with
  | error e => simp [MultiTXNProducer.beginOn, hw]
  | ok tm₁ =>
      cases hb : tm₁.beginTxn with
      | error e => simp [MultiTXNProducer.beginOn, hw, hb]
      | ok tm₂ => simp [MultiTXNProducer.beginOn, hw, hb]

theorem beginOn_senders (p : MultiTXNProducer) (tid : String)
    (tm : TransactionManager) (c : Nat × Nat) :
    (MultiTXNProducer.beginOn p tid tm c).1.senders = p.senders := by
  cases hw : tm.waitForPid c with
  | error e => simp [MultiTXNProducer.beginOn, hw]
  | ok tm₁ =>
      cases hb : tm₁.beginTxn with
      | error e => simp [MultiTXNProducer.beginOn, hw, hb]
      | ok tm₂ => simp [MultiTXNProducer.beginOn, hw, hb]

theorem beginOn_transactions_keys (p : MultiTXNProducer) (tid : String)
    (tm : TransactionManager) (c : Nat × Nat) :
    alKeys (MultiTXNProducer.beginOn p tid tm c).1.transactions =
      alKeys p.transactions := by
  cases hw : tm.waitForPid c with
  | error e => simp [MultiTXNProducer.beginOn, hw]
  | ok tm₁ =>
      cases hb : tm₁.beginTxn with
      | error e => simp [MultiTXNProducer.beginOn, hw, hb, alKeys_alUpdate]
      | ok tm₂ => simp [MultiTXNProducer.beginOn, hw, hb, alKeys_alUpdate]

theorem beginOn_preserves_consistent (p : MultiTXNProducer) (tid : String)
    (tm : TransactionManager) (c : Nat × Nat) (h : p.mapsConsistent) :
    (MultiTXNProducer.beginOn p tid tm c).1.mapsConsistent := by
  obtain ⟨h1, h2⟩ := h
  exact ⟨by rw [beginOn_transactions_keys, beginOn_accumulators, h1],
    by rw [beginOn_accumulators, beginOn_senders, h2]⟩

theorem initTransaction_preserves_consistent (p : MultiTXNProducer)
    (tid : String) (h : p.mapsConsistent) :
    (p.initTransaction tid).1.mapsConsistent := by
  obtain ⟨h1, h2⟩ := h
  constructor <;>
    simp [MultiTXNProducer.initTransaction, alKeys_alInsert, h1, h2]

theorem stopTransaction_fst (p : MultiTXNProducer) (tid : String) :
    (p.stopTransaction tid).1 =
      { p with
          transactions := alErase p.transactions tid
          accumulators := alErase p.accumulators tid
          senders := alErase p.senders tid } := by
  unfold MultiTXNProducer.stopTransaction
  cases hl : alLookup p.transactions tid with
  | none => simp
  | some tm =>
      by_cases hin : tm.isInTransaction
      · cases ha : tm.abortingTransaction with
        | error e => simp [hin, ha]
        | ok tm₁ => simp [hin, ha]
      · simp [hin]

theorem not_mem_alKeys_alErase {α : Type} (l : List (String × α)) (k : String) :
    k ∉ alKeys (alErase l k) := by
  rw [alKeys_alErase]
  intro hmem
  have := List.of_mem_filter hmem
  simp at this

theorem beginOn_ok_lookup (p : MultiTXNProducer) (tid : String)
    (tm : TransactionManager) (c : Nat × Nat)
    (hmem : (alLookup p.transactions tid).isSome = true)
    (h : (MultiTXNProducer.beginOn p tid tm c).2 = .ok ()) :
    ∃ tm', alLookup (MultiTXNProducer.beginOn p tid tm c).1.transactions tid =
      some tm' ∧ tm'.phase = .inTransaction ∧ tm'.pidEpoch.isSome = true := by
  cases hw : tm.waitForPid c with
  | error e => simp [MultiTXNProducer.beginOn, hw] at h
  | ok tm₁ =>
      cases hb : tm₁.beginTxn with
      | error e => simp [MultiTXNProducer.beginOn, hw, hb] at h
      | ok tm₂ =>
          refine ⟨tm₂, ?_, (beginTxn_ok_shape _ _ hb).1, ?_⟩
          · simp only [MultiTXNProducer.beginOn, hw, hb]
            have h1 : alLookup (alUpdate p.transactions tid tm₁) tid =
                some tm₁ := alLookup_isSome_alUpdate _ _ _ hmem
            exact alLookup_isSome_alUpdate _ _ _ (by simp [h1])
          · rw [(beginTxn_ok_shape _ _ hb).2]
            exact waitForPid_ok_pid _ _ _ hw

/-! ## Claim theorems -/

/-- C2: on a producer configured with a `transactional_id`, `send` and
`send_batch` called while the transaction manager is not inside a
transaction raise `IllegalOperation` synchronously — the outcome is
`failed`, so nothing is appended to any accumulator; on an
idempotent-only producer (manager without a `transactional_id`) no
`IllegalOperation` is ever raised by `send`/`send_batch`; the
per-identity check `MultiTXNProducer._verify_txn_started` raises the
same way for an identity whose manager is not in a transaction. -/
theorem C2_send_requires_active_transaction :
    (∀ (p : AIOKafkaProducer) (tm : TransactionManager) (t topic : String)
        (value key : Option Bytes) (partition : Option Int)
        (tid : Option String),
      p.txnManager = some tm → tm.transactionalId = some t →
      tm.isInTransaction = false → value.isSome = true →
      p.send topic value key partition none tid = .failed .illegalOperation) ∧
    (∀ (p : AIOKafkaProducer) (tm : TransactionManager) (t topic : String)
        (partition : Option Int) (q : Int),
      p.txnManager = some tm → tm.transactionalId = some t →
      tm.isInTransaction = false →
      partitionFor p.cfg topic partition none = .ok q →
      p.sendBatch topic partition = .failed .illegalOperation) ∧
    (∀ (p : AIOKafkaProducer) (tm : TransactionManager) (topic : String)
        (value key : Option Bytes) (partition : Option Int)
        (headers : Option Unit) (tid : Option String),
      p.txnManager = some tm → tm.transactionalId = none →
      p.send topic value key partition headers tid ≠
        .failed .illegalOperation ∧
      p.sendBatch topic partition ≠ .failed .illegalOperation) ∧
    (∀ (p : MultiTXNProducer) (t : String) (tm : TransactionManager),
      alLookup p.transactions t = some tm → tm.transactionalId = some t →
      tm.isInTransaction = false →
      p.verifyTxnStarted (some t) = .error .illegalOperation) := by
  refine ⟨?_, ?_, ?_, ?_⟩
  · intro p tm t topic value key partition tid hp ht hin hv
    obtain ⟨va, rfl⟩ := Option.isSome_iff_exists.mp hv
    have hver : p.verifyTxnStarted (p.transactionalIdOrDefault tid) =
        .error .illegalOperation := by
      simp [AIOKafkaProducer.verifyTxnStarted, hp, ht, hin]
    simp [AIOKafkaProducer.send, baseSend, hver]
  · intro p tm t topic partition q hp ht hin hpf
    simp [AIOKafkaProducer.sendBatch, hp, hpf, ht, hin]
  · intro p tm topic value key partition headers tid hp ht
    exact ⟨single_send_no_illegalOperation p tm hp ht topic value key
      partition headers tid,
      single_sendBatch_no_illegalOperation p tm hp ht topic partition⟩
  · intro p t tm hlk ht hin
    simp [MultiTXNProducer.verifyTxnStarted, hlk, ht, hin]

/-- Witness for C2: the transactional producer with a `Ready` (not
in-transaction) manager fails `send` and `send_batch` with
`IllegalOperation`; the idempotent-only producer does not; the
multiplexed check fails for identity X of `multiWithX`. -/
theorem C2_witness :
    txnReadyProducer.send "t" (some [1]) none none none none =
      .failed .illegalOperation ∧
    txnReadyProducer.sendBatch "t" (some 0) = .failed .illegalOperation ∧
    idempotentProducer.send "t" (some [1]) none none none none ≠
      .failed .illegalOperation ∧
    multiWithX.verifyTxnStarted (some "X") = .error .illegalOperation := by
  refine ⟨?_, ?_, ?_, ?_⟩
  · exact C2_send_requires_active_transaction.1 txnReadyProducer _ "T" "t"
      (some [1]) none none none rfl rfl rfl rfl
  · exact C2_send_requires_active_transaction.2.1 txnReadyProducer _ "T" "t"
      (some 0) 0 rfl rfl rfl rfl
  · exact (C2_send_requires_active_transaction.2.2.1 idempotentProducer _
      "t" (some [1]) none none none none rfl rfl).1
  · exact C2_send_requires_active_transaction.2.2.2 multiWithX "X" _ rfl rfl
      rfl

/-- C3: `commit_transaction` without a prior `begin_transaction` (the
manager exists, has a `transactional_id`, but is not in the
`InTransaction` phase) fails with `IllegalOperation` and returns the
producer unchanged; on a producer with no `transactional_id` configured
(no manager at all, or an idempotent-only manager)
`_ensure_transactional` raises `IllegalOperation` immediately, also
leaving the producer unchanged. -/
theorem C3_commit_without_begin_fails :
    (∀ (p : AIOKafkaProducer) (tm : TransactionManager) (t : String),
      p.txnManager = some tm → tm.transactionalId = some t →
      tm.phase ≠ .inTransaction →
      p.commitTransaction = (p, .error .illegalOperation)) ∧
    (∀ (p : AIOKafkaProducer), p.txnManager = none →
      p.commitTransaction = (p, .error .illegalOperation)) ∧
    (∀ (p : AIOKafkaProducer) (tm : TransactionManager),
      p.txnManager = some tm → tm.transactionalId = none →
      p.commitTransaction = (p, .error .illegalOperation)) := by
  refine ⟨?_, ?_, ?_⟩
  · intro p tm t hp ht hphase
    simp [AIOKafkaProducer.commitTransaction,
      AIOKafkaProducer.ensureTransactional, hp, ht,
      TransactionManager.committingTransaction, hphase]
  · intro p hp
    simp [AIOKafkaProducer.commitTransaction,
      AIOKafkaProducer.ensureTransactional, hp]
  · intro p tm hp ht
    simp [AIOKafkaProducer.commitTransaction,
      AIOKafkaProducer.ensureTransactional, hp, ht]

/-- Witness for C3: committing on the `Ready` transactional producer, on
a producer without any manager, and on the idempotent-only producer all
fail with `IllegalOperation`, leaving each producer unchanged. -/
theorem C3_witness :
    txnReadyProducer.commitTransaction =
      (txnReadyProducer, .error .illegalOperation) ∧
    plainTinyProducer.commitTransaction =
      (plainTinyProducer, .error .illegalOperation) ∧
    idempotentProducer.commitTransaction =
      (idempotentProducer, .error .illegalOperation) := by
  refine ⟨?_, ?_, ?_⟩
  · exact C3_commit_without_begin_fails.1 txnReadyProducer _ "T" rfl rfl
      (by decide)
  · exact C3_commit_without_begin_fails.2.1 plainTinyProducer rfl
  · exact C3_commit_without_begin_fails.2.2 idempotentProducer _ rfl rfl

/-- C9: the `transaction()` async context manager commits on clean body
exit (the manager moves through `Committing` back to `Ready`); when the
body raised and the manager reports a fatal error it performs no
transaction operation and leaves the state unchanged (the exception
propagates, `__aexit__` returning `None` on every path); when the body
raised and the error is not fatal it aborts, the manager ending `Ready`
again. -/
theorem C9_transaction_context_manager :
    (∀ (p : AIOKafkaProducer) (tm : TransactionManager) (t : String),
      p.txnManager = some tm → tm.transactionalId = some t →
      tm.phase = .inTransaction →
      transactionContextExit p false =
        ({ p with txnManager := some { tm with phase := .ready } },
         .ok .committed)) ∧
    (∀ (p : AIOKafkaProducer) (tm : TransactionManager),
      p.txnManager = some tm → tm.isFatalError = true →
      transactionContextExit p true = (p, .ok .noAction)) ∧
    (∀ (p : AIOKafkaProducer) (tm : TransactionManager) (t : String),
      p.txnManager = some tm → tm.transactionalId = some t →
      tm.isFatalError = false → tm.phase = .inTransaction →
      transactionContextExit p true =
        ({ p with txnManager := some { tm with phase := .ready } },
         .ok .aborted)) := by
  refine ⟨?_, ?_, ?_⟩
  · intro p tm t hp ht hphase
    simp [transactionContextExit, AIOKafkaProducer.commitTransaction,
      AIOKafkaProducer.ensureTransactional, hp, ht,
      TransactionManager.committingTransaction, hphase,
      TransactionManager.waitForTransactionEnd]
  · intro p tm hp hfatal
    simp [transactionContextExit, hp, hfatal]
  · intro p tm t hp ht hfatal hphase
    simp [transactionContextExit, hp, hfatal,
      AIOKafkaProducer.abortTransaction,
      AIOKafkaProducer.ensureTransactional, ht,
      TransactionManager.abortingTransaction, hphase,
      TransactionManager.waitForTransactionEnd]

/-- Witness for C9 on the in-transaction producer: clean exit commits,
exit with an exception aborts, and a fatal-state manager is left
untouched. -/
theorem C9_witness :
    transactionContextExit txnActiveProducer false =
      ({ txnActiveProducer with txnManager := some tmReadyT }, .ok .committed) ∧
    transactionContextExit txnActiveProducer true =
      ({ txnActiveProducer with txnManager := some tmReadyT }, .ok .aborted) ∧
    transactionContextExit txnFatalProducer true =
      (txnFatalProducer, .ok .noAction) := by
  refine ⟨?_, ?_, ?_⟩
  · exact C9_transaction_context_manager.1 txnActiveProducer _ "T" rfl rfl rfl
  · exact C9_transaction_context_manager.2.2 txnActiveProducer _ "T" rfl rfl
      rfl rfl
  · exact C9_transaction_context_manager.2.1 txnFatalProducer tmFatalT rfl rfl

/-- C6: in `MultiTXNProducer` the per-identity triple
(`TransactionManager`, `MessageAccumulator`, `Sender`) is created lazily
by the first `begin_transaction`/`maybe_begin_transaction` for that
identity; `stop_transaction` removes the identity from all three maps and
aborts (and waits out) any open transaction of the popped manager; and
every lifecycle operation preserves the invariant that `_transactions`,
`_accumulators` and `_senders` hold exactly the same identities. -/
theorem C6_per_identity_triple_lifecycle :
    (∀ (p : MultiTXNProducer) (tid : String) (c : Nat × Nat),
      alLookup p.transactions tid = none →
      tid ∈ alKeys (p.beginTransaction tid c).1.transactions ∧
      tid ∈ alKeys (p.beginTransaction tid c).1.accumulators ∧
      tid ∈ alKeys (p.beginTransaction tid c).1.senders) ∧
    (∀ (p : MultiTXNProducer) (tid : String) (c : Nat × Nat),
      alLookup p.transactions tid = none →
      tid ∈ alKeys (p.maybeBeginTransaction tid c).1.transactions ∧
      tid ∈ alKeys (p.maybeBeginTransaction tid c).1.accumulators ∧
      tid ∈ alKeys (p.maybeBeginTransaction tid c).1.senders) ∧
    (∀ (p : MultiTXNProducer) (tid : String),
      tid ∉ alKeys (p.stopTransaction tid).1.transactions ∧
      tid ∉ alKeys (p.stopTransaction tid).1.accumulators ∧
      tid ∉ alKeys (p.stopTransaction tid).1.senders) ∧
    (∀ (p : MultiTXNProducer) (tid : String) (tm : TransactionManager),
      alLookup p.transactions tid = some tm → tm.isInTransaction = true →
      (p.stopTransaction tid).2 = some { tm with phase := .ready }) ∧
    (∀ (p : MultiTXNProducer), p.mapsConsistent →
      (∀ tid, (p.initTransaction tid).1.mapsConsistent) ∧
      (∀ tid c, (p.beginTransaction tid c).1.mapsConsistent) ∧
      (∀ tid c, (p.maybeBeginTransaction tid c).1.mapsConsistent) ∧
      (∀ tid, (p.commitTransaction tid).1.mapsConsistent) ∧
      (∀ tid, (p.abortTransaction tid).1.mapsConsistent) ∧
      (∀ tid, (p.stopTransaction tid).1.mapsConsistent)) := by
  refine ⟨?_, ?_, ?_, ?_, ?_⟩
  · intro p tid c hl
    have hres : (p.beginTransaction tid c).1 =
        (MultiTXNProducer.beginOn (p.initTransaction tid).1 tid
          (p.initTransaction tid).2 c).1 := by
      simp [MultiTXNProducer.beginTransaction, hl]
    refine ⟨?_, ?_, ?_⟩ <;> rw [hres]
    · rw [beginOn_transactions_keys]
      simp [MultiTXNProducer.initTransaction, alKeys_alInsert]
    · rw [beginOn_accumulators]
      simp [MultiTXNProducer.initTransaction, alKeys_alInsert]
    · rw [beginOn_senders]
      simp [MultiTXNProducer.initTransaction, alKeys_alInsert]
  · intro p tid c hl
    have hres : (p.maybeBeginTransaction tid c).1 =
        (MultiTXNProducer.beginOn (p.initTransaction tid).1 tid
          (p.initTransaction tid).2 c).1 := by
      simp [MultiTXNProducer.maybeBeginTransaction, hl]
    refine ⟨?_, ?_, ?_⟩ <;> rw [hres]
    · rw [beginOn_transactions_keys]
      simp [MultiTXNProducer.initTransaction, alKeys_alInsert]
    · rw [beginOn_accumulators]
      simp [MultiTXNProducer.initTransaction, alKeys_alInsert]
    · rw [beginOn_senders]
      simp [MultiTXNProducer.initTransaction, alKeys_alInsert]
  · intro p tid
    refine ⟨?_, ?_, ?_⟩ <;> rw [stopTransaction_fst]
    · exact not_mem_alKeys_alErase p.transactions tid
    · exact not_mem_alKeys_alErase p.accumulators tid
    · exact not_mem_alKeys_alErase p.senders tid
  · intro p tid tm hl hin
    have hphase : tm.phase = .inTransaction := by
      simpa [TransactionManager.isInTransaction] using hin
    simp [MultiTXNProducer.stopTransaction, hl, hin,
      TransactionManager.abortingTransaction, hphase,
      TransactionManager.waitForTransactionEnd]
  · intro p h
    refine ⟨?_, ?_, ?_, ?_, ?_, ?_⟩
    · intro tid
      exact initTransaction_preserves_consistent p tid h
    · intro tid c
      cases hl : alLookup p.transactions tid with
      | some tm =>
          have hc := beginOn_preserves_consistent p tid tm c h
          simpa [MultiTXNProducer.beginTransaction, hl] using hc
      | none =>
          have h1 := initTransaction_preserves_consistent p tid h
          have hc := beginOn_preserves_consistent (p.initTransaction tid).1
            tid (p.initTransaction tid).2 c h1
          simpa [MultiTXNProducer.beginTransaction, hl,
            MultiTXNProducer.initTransaction] using hc
    · intro tid c
      cases hl : alLookup p.transactions tid with
      | some tm =>
          by_cases hin : tm.isInTransaction
          · have : (p.maybeBeginTransaction tid c).1 = p := by
              simp [MultiTXNProducer.maybeBeginTransaction, hl, hin]
            rw [this]
            exact h
          · have hc := beginOn_preserves_consistent p tid tm c h
            simpa [MultiTXNProducer.maybeBeginTransaction, hl, hin] using hc
      | none =>
          have h1 := initTransaction_preserves_consistent p tid h
          have hc := beginOn_preserves_consistent (p.initTransaction tid).1
            tid (p.initTransaction tid).2 c h1
          simpa [MultiTXNProducer.maybeBeginTransaction, hl,
            MultiTXNProducer.initTransaction] using hc
    · intro tid
      cases hl : alLookup p.transactions tid with
      | none =>
          have hfst : (p.commitTransaction tid).1 = p := by
            simp [MultiTXNProducer.commitTransaction, hl]
          rw [hfst]
          exact h
      | some tm =>
          cases hcm : tm.committingTransaction with
          | error e =>
              have hfst : (p.commitTransaction tid).1 = p := by
                simp [MultiTXNProducer.commitTransaction, hl, hcm]
              rw [hfst]
              exact h
          | ok tm₁ =>
              have hfst : (p.commitTransaction tid).1 =
                  { p with transactions :=
                      (alUpdate p.transactions tid tm₁.waitForTransactionEnd) } := by
                simp [MultiTXNProducer.commitTransaction, hl, hcm]
              rw [hfst]
              obtain ⟨h1, h2⟩ := h
              exact ⟨by simpa [alKeys_alUpdate] using h1, h2⟩
    · intro tid
      cases hl : alLookup p.transactions tid with
      | none =>
          have hfst : (p.abortTransaction tid).1 = p := by
            simp [MultiTXNProducer.abortTransaction, hl]
          rw [hfst]
          exact h
      | some tm =>
          cases hab : tm.abortingTransaction with
          | error e =>
              have hfst : (p.abortTransaction tid).1 = p := by
                simp [MultiTXNProducer.abortTransaction, hl, hab]
              rw [hfst]
              exact h
          | ok tm₁ =>
              have hfst : (p.abortTransaction tid).1 =
                  { p with transactions :=
                      (alUpdate p.transactions tid tm₁.waitForTransactionEnd) } := by
                simp [MultiTXNProducer.abortTransaction, hl, hab]
              rw [hfst]
              obtain ⟨h1, h2⟩ := h
              exact ⟨by simpa [alKeys_alUpdate] using h1, h2⟩
    · intro tid
      rw [stopTransaction_fst]
      obtain ⟨h1, h2⟩ := h
      exact ⟨by simp [alKeys_alErase, h1], by simp [alKeys_alErase, h2]⟩

/-- Witness for C6: beginning a transaction for the fresh identity `A`
creates its triple; stopping identity `X` removes it from the maps and
returns its manager aborted back to `Ready`; committing on `X` keeps the
maps consistent. -/
theorem C6_witness :
    "A" ∈ alKeys (multiEmpty.beginTransaction "A" (1, 0)).1.transactions ∧
    "X" ∉ alKeys (multiWithX.stopTransaction "X").1.transactions ∧
    (multiActiveX.stopTransaction "X").2 =
      some { tmActiveX with phase := .ready } ∧
    (multiWithX.commitTransaction "X").1.mapsConsistent := by
  refine ⟨?_, ?_, ?_, ?_⟩
  · exact (C6_per_identity_triple_lifecycle.1 multiEmpty "A" (1, 0) rfl).1
  · exact ((C6_per_identity_triple_lifecycle.2.2.1) multiWithX "X").1
  · exact C6_per_identity_triple_lifecycle.2.2.2.1 multiActiveX "X" tmActiveX
      rfl rfl
  · exact ((C6_per_identity_triple_lifecycle.2.2.2.2) multiWithX
      ⟨rfl, rfl⟩).2.2.2.1 "X"

/-- C7: `begin_transaction` (single-identity and multiplexed) completes
`wait_for_pid` before invoking the manager's `begin_transaction`
transition: whenever the call succeeds, the resulting manager is in the
`InTransaction` phase AND holds a producer id/epoch — the producer never
enters `InTransaction` without one. -/
theorem C7_pid_acquired_before_in_transaction :
    (∀ (p : AIOKafkaProducer) (c : Nat × Nat),
      (p.beginTransaction c).2 = .ok () →
      ∃ tm, (p.beginTransaction c).1.txnManager = some tm ∧
        tm.phase = .inTransaction ∧ tm.pidEpoch.isSome = true) ∧
    (∀ (p : MultiTXNProducer) (tid : String) (c : Nat × Nat),
      (p.beginTransaction tid c).2 = .ok () →
      ∃ tm, alLookup (p.beginTransaction tid c).1.transactions tid = some tm ∧
        tm.phase = .inTransaction ∧ tm.pidEpoch.isSome = true) := by
  constructor
  · intro p c h
    cases he : p.ensureTransactional with
    | error e => simp [AIOKafkaProducer.beginTransaction, he] at h
    | ok u =>
        cases htm : p.txnManager with
        | none => simp [AIOKafkaProducer.beginTransaction, he, htm] at h
        | some tm =>
            cases hw : tm.waitForPid c with
            | error e =>
                simp [AIOKafkaProducer.beginTransaction, he, htm, hw] at h
            | ok tm₁ =>
                cases hb : tm₁.beginTxn with
                | error e =>
                    simp [AIOKafkaProducer.beginTransaction, he, htm, hw,
                      hb] at h
                | ok tm₂ =>
                    refine ⟨tm₂, ?_, (beginTxn_ok_shape _ _ hb).1, ?_⟩
                    · simp [AIOKafkaProducer.beginTransaction, he, htm, hw, hb]
                    · rw [(beginTxn_ok_shape _ _ hb).2]
                      exact waitForPid_ok_pid _ _ _ hw
  · intro p tid c h
    cases hl : alLookup p.transactions tid with
    | some tm =>
        have hmem : (alLookup p.transactions tid).isSome = true := by
          simp [hl]
        have h' : (MultiTXNProducer.beginOn p tid tm c).2 = .ok () := by
          simpa [MultiTXNProducer.beginTransaction, hl] using h
        have hres := beginOn_ok_lookup p tid tm c hmem h'
        simpa [MultiTXNProducer.beginTransaction, hl] using hres
    | none =>
        have hmem : (alLookup (p.initTransaction tid).1.transactions
            tid).isSome = true := by
          simp [MultiTXNProducer.initTransaction, alLookup_alInsert_self]
        have h' : (MultiTXNProducer.beginOn (p.initTransaction tid).1 tid
            (p.initTransaction tid).2 c).2 = .ok () := by
          simpa [MultiTXNProducer.beginTransaction, hl,
            MultiTXNProducer.initTransaction] using h
        have hres := beginOn_ok_lookup (p.initTransaction tid).1 tid
          (p.initTransaction tid).2 c hmem h'
        simpa [MultiTXNProducer.beginTransaction, hl,
          MultiTXNProducer.initTransaction] using hres

/-- Witness for C7: beginning on the `Ready` single producer and on the
fresh multiplexed identity `A` both succeed and land `InTransaction` with
a pid. -/
theorem C7_witness :
    (txnReadyProducer.beginTransaction (1, 2)).2 = .ok () ∧
    (∃ tm, (txnReadyProducer.beginTransaction (1, 2)).1.txnManager =
      some tm ∧ tm.phase = .inTransaction ∧ tm.pidEpoch.isSome = true) ∧
    (multiEmpty.beginTransaction "A" (1, 0)).2 = .ok () ∧
    (∃ tm,
      alLookup (multiEmpty.beginTransaction "A" (1, 0)).1.transactions "A" =
        some tm ∧ tm.phase = .inTransaction ∧ tm.pidEpoch.isSome = true) := by
  refine ⟨rfl, ?_, rfl, ?_⟩
  · exact C7_pid_acquired_before_in_transaction.1 txnReadyProducer (1, 2) rfl
  · exact C7_pid_acquired_before_in_transaction.2 multiEmpty "A" (1, 0) rfl

/-- C1: contrary to the claim, a record submitted through
`MultiTXNProducer.send` with an explicit `transactional_id='X'` is NOT
routed to identity X's accumulator: `_transactional_id_or_default`
discards the argument (its body is `return None`), so the record lands in
the default non-transactional accumulator, and even X's
in-transaction check is skipped — here X's manager is `Ready`, not in a
transaction, yet `send` appends to the default accumulator without
raising `IllegalOperation`. -/
theorem C1_multi_send_ignores_explicit_transactional_id :
    multiWithX.send "t" (some [1, 2, 3]) none none none (some "X") =
      .appended .primary ⟨⟨"t", 0⟩, none, some [1, 2, 3]⟩ ∧
    (alLookup multiWithX.transactions "X").map TransactionManager.isInTransaction =
      some false := by
  exact ⟨rfl, rfl⟩

/-- C10 counterexample: the input `partition=-1` (violating the
non-negativity precondition) together with a 20-byte value against a
10-byte `max_request_size` makes `send` fail with
`MessageSizeTooLargeError`, not with an assertion error as the claim
states. -/
theorem C10_counterexample :
    plainTinyProducer.send "t" (some (List.replicate 20 0)) none (some (-1))
        none none = .failed (.messageSizeTooLarge 20) ∧
    (-1 : Int) < 0 ∧
    KafkaError.messageSizeTooLarge 20 ≠ .assertionError := by
  exact ⟨rfl, by decide, by decide⟩

/-- C10 (amended): `send` requires at least one of key or value to be
non-`None`, and an explicit partition must be non-negative and present in
the metadata; every violating input fails before the record is buffered
in any accumulator (it is never `appended`); the failure is an assertion
error, except that an oversized record raises `MessageSizeTooLargeError`
during serialization before the partition assertions are reached. -/
theorem C10_send_preconditions (p : AIOKafkaProducer) (topic : String)
    (value key : Option Bytes) (q : Int) (headers : Option Unit)
    (tid : Option String) :
    (value = none → key = none → ∀ partition,
      p.send topic value key partition headers tid = .failed .assertionError) ∧
    (¬ (0 ≤ q ∧ q ∈ p.cfg.partitionsForTopic topic) →
      ∀ dest rec, p.send topic value key (some q) headers tid ≠
        .appended dest rec) ∧
    (value.isSome = true →
      p.verifyTxnStarted (p.transactionalIdOrDefault tid) = .ok () →
      headers = none →
      ¬ (0 ≤ q ∧ q ∈ p.cfg.partitionsForTopic topic) →
      (serializedSize p.cfg key value ≤ p.cfg.maxRequestSize →
        p.send topic value key (some q) headers tid = .failed .assertionError) ∧
      (serializedSize p.cfg key value > p.cfg.maxRequestSize →
        p.send topic value key (some q) headers tid =
          .failed (.messageSizeTooLarge (serializedSize p.cfg key value)))) := by
  refine ⟨?_, ?_, ?_⟩
  · intro hv hk partition
    subst hv
    subst hk
    by_cases h081 : p.cfg.apiVersionGE081
    · simp [AIOKafkaProducer.send, baseSend, h081]
    · simp [AIOKafkaProducer.send, baseSend, h081]
  · intro hq dest rec
    exact baseSend_bad_partition_not_appended p.cfg _ topic value key q
      headers tid hq dest rec
  · intro hv hverify hh hq
    subst hh
    obtain ⟨va, rfl⟩ := Option.isSome_iff_exists.mp hv
    have hpf : ∀ sk : Option Bytes, partitionFor p.cfg topic (some q) sk =
        .error .assertionError := by
      intro sk
      by_cases h0 : 0 ≤ q
      · have h1 : ¬ q ∈ p.cfg.partitionsForTopic topic :=
          fun hmem => hq ⟨h0, hmem⟩
        simp [partitionFor, h0, h1]
      · simp [partitionFor, h0]
    constructor
    · intro hsize
      have hser : serialize p.cfg key (some va) =
          .ok (serializedPair p.cfg key (some va)) := by
        simp only [serializedSize] at hsize
        simp only [serialize]
        rw [if_neg (by omega)]
      simp [AIOKafkaProducer.send, baseSend, hverify, hser, hpf]
    · intro hsize
      exact baseSend_too_large p.cfg _ topic (some va) key (some q) tid
        (by simp) hverify hsize

/-- Witness for the amended C10: both-`None` key/value fail the entry
assertion; a valid-size record with `partition=-1` fails the partition
assertion; and the oversized case of the counterexample. -/
theorem C10_witness :
    plainTinyProducer.send "t" none none none none none =
      .failed .assertionError ∧
    plainTinyProducer.send "t" (some [1, 2]) none (some (-1)) none none =
      .failed .assertionError := by
  constructor
  · exact (C10_send_preconditions plainTinyProducer "t" none none 0 none
      none).1 rfl rfl none
  · exact ((C10_send_preconditions plainTinyProducer "t" (some [1, 2]) none
      (-1) none none).2.2 rfl rfl rfl (by decide)).1 (by decide)

/-- C8: cancelling the caller's await of `begin_transaction`,
`commit_transaction`, `abort_transaction` or
`send_offsets_to_transaction` (on either producer class) does not abort
the underlying coordinator round trip: every `wait_for_pid`,
`wait_for_transaction_end` and `add_offsets_to_txn` await in those
coroutines is wrapped in `asyncio.shield`. -/
theorem C8_lifecycle_waits_shielded_from_cancellation :
    coordinatorTripsSurviveCancel beginTransactionAwaits = true ∧
    coordinatorTripsSurviveCancel commitTransactionAwaits = true ∧
    coordinatorTripsSurviveCancel abortTransactionAwaits = true ∧
    coordinatorTripsSurviveCancel sendOffsetsToTransactionAwaits = true ∧
    coordinatorTripsSurviveCancel (multiBeginTransactionAwaits true) = true ∧
    coordinatorTripsSurviveCancel (multiBeginTransactionAwaits false) = true ∧
    coordinatorTripsSurviveCancel multiCommitTransactionAwaits = true ∧
    coordinatorTripsSurviveCancel multiAbortTransactionAwaits = true ∧
    coordinatorTripsSurviveCancel multiSendOffsetsToTransactionAwaits = true := by
  decide

/-- C5: the producer constructors validate configuration: an `acks`
value outside `{0, 1, -1, 'all'}` (when explicitly set) raises
`ValueError`, in `BaseProducer` and in `AIOKafkaProducer`; a
`compression_type` outside `{'gzip', 'snappy', 'lz4', None}` raises
`ValueError` in both; `enable_idempotence` (forced by a
`transactional_id`) with an explicitly set `acks` outside `('all', -1)`
raises `ValueError`; `MultiTXNProducer` likewise rejects an explicit
`acks` outside `('all', -1)`; in every such case the constructor returns
an error and no producer object is created. -/
theorem C5_constructor_validates_configuration :
    (∀ (acks : AcksParam) (ct : Option String) (hc : String → Bool),
      acksAccepted acks = false →
      baseProducerInit acks ct hc = .error .valueError) ∧
    (∀ (acks : AcksParam) (enIdem : Bool) (tid ct : Option String)
        (hc : String → Bool),
      acksAccepted acks = false →
      aiokafkaProducerInit acks enIdem tid ct hc = .error .valueError) ∧
    (∀ (acks : AcksParam) (ct : Option String) (hc : String → Bool),
      ¬ (ct = some "gzip" ∨ ct = some "snappy" ∨ ct = some "lz4" ∨ ct = none) →
      baseProducerInit acks ct hc = .error .valueError) ∧
    (∀ (acks : AcksParam) (enIdem : Bool) (tid ct : Option String)
        (hc : String → Bool),
      ¬ (ct = some "gzip" ∨ ct = some "snappy" ∨ ct = some "lz4" ∨ ct = none) →
      aiokafkaProducerInit acks enIdem tid ct hc = .error .valueError) ∧
    (∀ (acks : AcksParam) (enIdem : Bool) (tid ct : Option String)
        (hc : String → Bool),
      (enIdem = true ∨ tid.isSome = true) →
      acks ≠ .missing → acksAllOrMinusOne acks = false →
      aiokafkaProducerInit acks enIdem tid ct hc = .error .valueError) ∧
    (∀ (acks : AcksParam) (ct : Option String) (hc : String → Bool),
      acks ≠ .missing → acksAllOrMinusOne acks = false →
      multiTXNProducerInit acks ct hc = .error .valueError) := by
  refine ⟨?_, ?_, ?_, ?_, ?_, ?_⟩
  · intro acks ct hc h
    exact baseInit_error_of_bad_acks acks ct hc h
  · intro acks enIdem tid ct hc h
    have hm := acks_ne_missing_of_not_accepted acks h
    have ha := acksAllOrMinusOne_false_of_not_accepted acks h
    cases htid : tid.isSome <;> cases enIdem <;>
      simp [aiokafkaProducerInit, htid, hm, ha, baseInit_error_of_bad_acks _ ct hc h]
  · intro acks ct hc h
    exact baseInit_error_of_bad_compression acks ct hc h
  · intro acks enIdem tid ct hc h
    have hbase : ∀ a, baseProducerInit a ct hc = .error .valueError :=
      fun a => baseInit_error_of_bad_compression a ct hc h
    cases htid : tid.isSome <;> cases enIdem <;>
      simp [aiokafkaProducerInit, htid, hbase] <;>
      by_cases hm : acks = AcksParam.missing <;>
      simp [hm] <;>
      cases hao : acksAllOrMinusOne acks <;> simp [hao, hbase]
  · intro acks enIdem tid ct hc hie hm ha
    have hidem : (if tid.isSome then true else enIdem) = true := by
      rcases hie with h | h
      · cases htid : tid.isSome <;> simp [htid, h]
      · simp [h]
    simp [aiokafkaProducerInit, hidem, hm, ha]
  · intro acks ct hc hm ha
    simp [multiTXNProducerInit, hm, ha]

/-- C4: a key/value pair whose serialized size (record overhead plus
serialized key and value lengths) strictly exceeds `max_request_size`
makes `send` raise `MessageSizeTooLargeError` synchronously, before the
record reaches any accumulator (the outcome is `failed`, never
`appended`); a pair at or below the limit passes `_serialize`'s
validation. -/
theorem C4_oversized_record_rejected_before_batching :
    (∀ (p : AIOKafkaProducer) (topic : String) (value key : Option Bytes)
        (partition : Option Int) (tid : Option String),
      value.isSome = true →
      p.verifyTxnStarted (p.transactionalIdOrDefault tid) = .ok () →
      serializedSize p.cfg key value > p.cfg.maxRequestSize →
      p.send topic value key partition none tid =
        .failed (.messageSizeTooLarge (serializedSize p.cfg key value))) ∧
    (∀ (cfg : ProducerConfig) (key value : Option Bytes),
      serializedSize cfg key value ≤ cfg.maxRequestSize →
      serialize cfg key value = .ok (serializedPair cfg key value)) := by
  constructor
  · intro p topic value key partition tid hv hverify hsize
    exact baseSend_too_large p.cfg _ topic value key partition tid hv hverify hsize
  · intro cfg key value hsize
    simp only [serializedSize] at hsize
    simp only [serialize]
    rw [if_neg (by omega)]

/-- Witness for C4: an 11-byte value against a 10-byte limit fails with
`MessageSizeTooLargeError`; a 3-byte value passes validation. -/
theorem C4_witness :
    plainTinyProducer.send "t" (some (List.replicate 11 0)) none none none none =
      .failed (.messageSizeTooLarge 11) ∧
    serialize tinyCfg none (some [1, 2, 3]) = .ok (none, some [1, 2, 3]) := by
  constructor
  · have h := C4_oversized_record_rejected_before_batching.1 plainTinyProducer
      "t" (some (List.replicate 11 0)) none none none rfl rfl (by decide)
    have hs : serializedSize plainTinyProducer.cfg none
        (some (List.replicate 11 0)) = 11 := by decide
    rw [hs] at h
    exact h
  · exact C4_oversized_record_rejected_before_batching.2 tinyCfg none
      (some [1, 2, 3]) (by decide)

/-- Witness for C5 at concrete inputs: `acks=2` is rejected by
`BaseProducer`, `acks=1` with idempotence by `AIOKafkaProducer`,
`compression_type='zstd'` by `BaseProducer`, and `acks=1` by
`MultiTXNProducer`. -/
theorem C5_witness :
    baseProducerInit (.intAcks 2) none (fun _ => true) = .error .valueError ∧
    aiokafkaProducerInit (.intAcks 1) true none none (fun _ => true) =
      .error .valueError ∧
    baseProducerInit (.intAcks 1) (some "zstd") (fun _ => true) =
      .error .valueError ∧
    multiTXNProducerInit (.intAcks 1) none (fun _ => true) =
      .error .valueError := by
  refine ⟨?_, ?_, ?_, ?_⟩
  · exact C5_constructor_validates_configuration.1 (.intAcks 2) none
      (fun _ => true) (by decide)
  · exact C5_constructor_validates_configuration.2.2.2.2.1 (.intAcks 1) true
      none none (fun _ => true) (Or.inl rfl) (by decide) (by decide)
  · exact C5_constructor_validates_configuration.2.2.1 (.intAcks 1)
      (some "zstd") (fun _ => true) (by decide)
  · exact C5_constructor_validates_configuration.2.2.2.2.2 (.intAcks 1) none
      (fun _ => true) (by decide) (by decide)

end AIOKafka
